import Mathlib

/-!
Verification of the etcdraft consensus chain core
(orderer/consensus/etcdraft/chain.go and util.go).

Certificates are modelled as byte strings (`String`), raft ids as `Nat`
(holding uint64 values; arithmetic that can wrap in Go is taken modulo
2^64 explicitly).  Go maps `uint64 -> *Consenter` are modelled as
association lists; Go map assignment replaces the binding in place when
the key is present and appends otherwise, and `delete` removes the
binding.
-/

namespace Etcdraft

/-- A consenter identity: endpoint plus the TLS certificate pair
(etcdraft.Consenter). -/
structure Consenter where
  host : String
  port : Nat
  serverTlsCert : String
  clientTlsCert : String
deriving DecidableEq, Repr, Inhabited

/-- etcdraft.BlockMetadata: consenter map, next free raft id, and the raft
index persisted with the last written block. -/
structure BlockMetadata where
  consenters : List (Nat × Consenter)
  nextConsenterId : Nat
  raftIndex : Nat
deriving DecidableEq, Repr

/-- raftpb.ConfChangeType, restricted to the two types the chain emits. -/
inductive ConfChangeType where
  | addNode
  | removeNode
deriving DecidableEq, Repr

/-- raftpb.ConfChange as emitted by ComputeMembershipChanges. -/
structure ConfChange where
  nodeID : Nat
  type : ConfChangeType
deriving DecidableEq, Repr

/-- MembershipChanges (util.go). -/
structure MembershipChanges where
  newBlockMetadata : BlockMetadata
  addedNodes : List Consenter
  removedNodes : List Consenter
  confChange : Option ConfChange
  rotatedNode : Nat
deriving DecidableEq, Repr

/-- Keys of a consenter map. -/
def mapKeys (m : List (Nat × Consenter)) : List Nat :=
  m.map (fun p => p.1)

/-- Go map read `m[k]`: the binding of `k`, if any. -/
def mapLookup (k : Nat) : List (Nat × Consenter) → Option Consenter
  | [] => none
  | p :: rest => if p.1 = k then some p.2 else mapLookup k rest

/-- Go map assignment `m[k] = v`: replace in place, or append if absent. -/
def mapInsert (k : Nat) (v : Consenter) : List (Nat × Consenter) → List (Nat × Consenter)
  | [] => [(k, v)]
  | p :: rest => if p.1 = k then (k, v) :: rest else p :: mapInsert k v rest

/-- Go `delete(m, k)`. -/
def mapDelete (k : Nat) (m : List (Nat × Consenter)) : List (Nat × Consenter) :=
  m.filter (fun p => p.1 ≠ k)

/-- MembershipByCert (util.go): the set of client TLS certificates of a
consenter map. -/
def MembershipByCert (m : List (Nat × Consenter)) : List String :=
  m.map (fun p => p.2.clientTlsCert)

/-- ConsentersToMap (util.go): the set of client TLS certificates of a
consenter slice. -/
def ConsentersToMap (cs : List Consenter) : List String :=
  cs.map (fun c => c.clientTlsCert)

/-- The consenters of the new set whose client TLS certificate is not keyed
in the old metadata (first loop of ComputeMembershipChanges). -/
def addedNodes (old : BlockMetadata) (newConsenters : List Consenter) : List Consenter :=
  newConsenters.filter (fun c => decide (c.clientTlsCert ∉ MembershipByCert old.consenters))

/-- The entries of the old consenter map whose client TLS certificate is
absent from the new set, with their raft ids (second loop of
ComputeMembershipChanges). -/
def removedPairs (old : BlockMetadata) (newConsenters : List Consenter) : List (Nat × Consenter) :=
  old.consenters.filter (fun p => decide (p.2.clientTlsCert ∉ ConsentersToMap newConsenters))

/-- The removed consenters (RemovedNodes of the result). -/
def removedNodes (old : BlockMetadata) (newConsenters : List Consenter) : List Consenter :=
  (removedPairs old newConsenters).map (fun p => p.2)

/-- The deletedNodeID variable: the raft id recorded by the removal loop; the last
assignment wins, and it stays zero when nothing is removed. -/
def deletedNodeID (old : BlockMetadata) (newConsenters : List Consenter) : Nat :=
  ((removedPairs old newConsenters).map (fun p => p.1)).getLastD 0

/-- ComputeMembershipChanges (util.go).  The `switch` on the sizes of the
added and removed sets is rendered as an if chain in the source order. -/
def ComputeMembershipChanges (old : BlockMetadata) (newConsenters : List Consenter) :
    Except String MembershipChanges :=
  let added := addedNodes old newConsenters
  let removed := removedNodes old newConsenters
  let dnid := deletedNodeID old newConsenters
  let base : MembershipChanges :=
    { newBlockMetadata := old
      addedNodes := added
      removedNodes := removed
      confChange := none
      rotatedNode := 0 }
  if added.length = 1 ∧ removed.length = 1 then
    -- cert rotation
    .ok { base with
          rotatedNode := dnid
          newBlockMetadata :=
            { old with consenters := mapInsert dnid (added.headD default) old.consenters } }
  else if added.length = 1 ∧ removed.length = 0 then
    -- new node
    .ok { base with
          newBlockMetadata :=
            { old with
              consenters := mapInsert old.nextConsenterId (added.headD default) old.consenters
              nextConsenterId := old.nextConsenterId + 1 }
          confChange := some { nodeID := old.nextConsenterId, type := .addNode } }
  else if added.length = 0 ∧ removed.length = 1 then
    -- removed node
    .ok { base with
          newBlockMetadata := { old with consenters := mapDelete dnid old.consenters }
          confChange := some { nodeID := dnid, type := .removeNode } }
  else if added.length = 0 ∧ removed.length = 0 then
    -- no change
    .ok base
  else
    .error ("update of more than one consenter at a time is not supported")

/-- Whether a membership computation was rejected. -/
def isMembershipError (r : Except String MembershipChanges) : Bool :=
  match r with
  | .error _ => true
  | .ok _ => false

/-- C2: `ComputeMembershipChanges` fails exactly when more than one consenter
is added or more than one is removed (added/removed computed by
client-TLS-certificate membership); so any change with
`|added| + |removed| > 2` is rejected and any change with `|added| ≤ 1` and
`|removed| ≤ 1` succeeds. -/
theorem computeMembershipChanges_error_iff
    (old : BlockMetadata) (newConsenters : List Consenter) :
    isMembershipError (ComputeMembershipChanges old newConsenters) = true ↔
      1 < (addedNodes old newConsenters).length ∨
        1 < (removedNodes old newConsenters).length := by
  unfold ComputeMembershipChanges
  dsimp only
  split_ifs with h1 h2 h3 h4 <;> simp [isMembershipError] <;> omega

theorem mapLookup_mapInsert_self (k : Nat) (v : Consenter) (m : List (Nat × Consenter)) :
    mapLookup k (mapInsert k v m) = some v := by
  induction m with
  | nil => simp [mapInsert, mapLookup]
  | cons p rest ih =>
    by_cases h : p.1 = k
    · simp [mapInsert, mapLookup, h]
    · simp [mapInsert, mapLookup, h, ih]

theorem length_mapInsert_mem (k : Nat) (v : Consenter) (m : List (Nat × Consenter))
    (h : k ∈ mapKeys m) : (mapInsert k v m).length = m.length := by
  induction m with
  | nil => simp [mapKeys] at h
  | cons p rest ih =>
    by_cases hp : p.1 = k
    · simp [mapInsert, hp]
    · simp only [mapKeys, List.map_cons, List.mem_cons] at h
      rcases h with h | h

      · exact absurd h.symm hp
      · simp [mapInsert, hp, ih h]

theorem length_mapInsert_not_mem (k : Nat) (v : Consenter) (m : List (Nat × Consenter))
    (h : k ∉ mapKeys m) : (mapInsert k v m).length = m.length + 1 := by
  induction m with
  | nil => simp [mapInsert]
  | cons p rest ih =>
    simp only [mapKeys, List.map_cons, List.mem_cons] at h
    push_neg at h
    have hp : ¬ p.1 = k := fun hh => h.1 hh.symm
    simp [mapInsert, hp, ih h.2]

theorem mapKeys_mapInsert_mem (k : Nat) (v : Consenter) (m : List (Nat × Consenter))
    (h : k ∈ mapKeys m) : mapKeys (mapInsert k v m) = mapKeys m := by
  induction m with
  | nil => simp [mapKeys] at h
  | cons p rest ih =>
    by_cases hp : p.1 = k
    · simp [mapInsert, mapKeys, hp]
    · simp only [mapKeys, List.map_cons, List.mem_cons] at h
      rcases h with h | h
      · exact absurd h.symm hp
      · simp [mapInsert, mapKeys, hp]
        exact ih h

theorem mapLookup_mapDelete_self (k : Nat) (m : List (Nat × Consenter)) :
    mapLookup k (mapDelete k m) = none := by
  induction m with
  | nil => simp [mapDelete, mapLookup]
  | cons p rest ih =>
    by_cases hp : p.1 = k
    · simpa [mapDelete, hp] using ih
    · simpa [mapDelete, mapLookup, hp] using ih

theorem mapDelete_not_mem (k : Nat) (m : List (Nat × Consenter))
    (h : k ∉ mapKeys m) : mapDelete k m = m := by
  induction m with
  | nil => rfl
  | cons p rest ih =>
    simp only [mapKeys, List.map_cons, List.mem_cons] at h
    push_neg at h
    simp [mapDelete] at ih ⊢
    exact ⟨fun hh => h.1 hh.symm, ih h.2⟩

theorem length_mapDelete (k : Nat) (m : List (Nat × Consenter))
    (hnd : (mapKeys m).Nodup) (h : k ∈ mapKeys m) :
    (mapDelete k m).length + 1 = m.length := by
  induction m with
  | nil => simp [mapKeys] at h
  | cons p rest ih =>
    simp only [mapKeys, List.map_cons, List.nodup_cons] at hnd
    by_cases hp : p.1 = k
    · have : mapDelete k (p :: rest) = mapDelete k rest := by simp [mapDelete, hp]
      rw [this, mapDelete_not_mem k rest (hp ▸ hnd.1)]
      simp
    · simp only [mapKeys, List.map_cons, List.mem_cons] at h
      rcases h with h | h
      · exact absurd h.symm hp
      · have : mapDelete k (p :: rest) = p :: mapDelete k rest := by simp [mapDelete, hp]
        rw [this]
        simp only [List.length_cons]
        rw [← ih hnd.2 h]

theorem mem_of_removedPairs (old : BlockMetadata) (newConsenters : List Consenter)
    (p : Nat × Consenter) (h : p ∈ removedPairs old newConsenters) :
    p ∈ old.consenters :=
  List.mem_of_mem_filter h

/-- C3: a rotation (exactly one consenter added and one removed) reuses the
removed consenter's raft id: `rotatedNode` is that id, the new metadata maps
it to the added consenter, no Raft ConfChange is emitted, and
`nextConsenterId` is unchanged. -/
theorem computeMembershipChanges_rotation
    (old : BlockMetadata) (newConsenters : List Consenter)
    (a : Consenter) (rid : Nat) (rc : Consenter)
    (hadd : addedNodes old newConsenters = [a])
    (hrem : removedPairs old newConsenters = [(rid, rc)]) :
    ∃ mc, ComputeMembershipChanges old newConsenters = .ok mc ∧
      mc.rotatedNode = rid ∧
      mapLookup rid mc.newBlockMetadata.consenters = some a ∧
      mc.confChange = none ∧
      mc.newBlockMetadata.nextConsenterId = old.nextConsenterId := by
  have hrn : removedNodes old newConsenters = [rc] := by
    unfold removedNodes
    rw [hrem]
    rfl
  have hdn : deletedNodeID old newConsenters = rid := by
    unfold deletedNodeID
    rw [hrem]
    rfl
  unfold ComputeMembershipChanges
  dsimp only
  rw [hadd, hrn, hdn]
  simp [mapLookup_mapInsert_self]

def rotC1 : Consenter := ⟨"host1", 7051, "server1", "client1"⟩

def rotC2 : Consenter := ⟨"host2", 7052, "server2", "client2"⟩

def rotC3 : Consenter := ⟨"host3", 7053, "server3", "client3"⟩

def rotC3x : Consenter := ⟨"host3", 7053, "server3x", "client3x"⟩

def rotC4 : Consenter := ⟨"host4", 7054, "server4", "client4"⟩

def rotOld : BlockMetadata :=
  { consenters := [(1, rotC1), (2, rotC2), (3, rotC3)], nextConsenterId := 4, raftIndex := 0 }

theorem computeMembershipChanges_rotation_witness :
    ∃ mc, ComputeMembershipChanges rotOld [rotC1, rotC2, rotC3x] = .ok mc ∧
      mc.rotatedNode = 3 ∧
      mapLookup 3 mc.newBlockMetadata.consenters = some rotC3x ∧
      mc.confChange = none ∧
      mc.newBlockMetadata.nextConsenterId = rotOld.nextConsenterId :=
  computeMembershipChanges_rotation rotOld [rotC1, rotC2, rotC3x] rotC3x 3 rotC3
    (by decide) (by decide)

/-- C4: adding one consenter assigns it raft id `nextConsenterId`, inserts
it, increments `nextConsenterId` and emits `ConfChangeAddNode`; removing one
consenter emits `ConfChangeRemoveNode` and deletes its entry; each changes
the consenter count by exactly one, while a rotation preserves the count and
the raft ids. -/
theorem computeMembershipChanges_add_remove
    (old : BlockMetadata) (newConsenters : List Consenter)
    (hnd : (mapKeys old.consenters).Nodup) :
    (∀ a, addedNodes old newConsenters = [a] →
      removedPairs old newConsenters = [] →
      old.nextConsenterId ∉ mapKeys old.consenters →
      ∃ mc, ComputeMembershipChanges old newConsenters = .ok mc ∧
        mapLookup old.nextConsenterId mc.newBlockMetadata.consenters = some a ∧
        mc.newBlockMetadata.nextConsenterId = old.nextConsenterId + 1 ∧
        mc.confChange = some { nodeID := old.nextConsenterId, type := .addNode } ∧
        mc.newBlockMetadata.consenters.length = old.consenters.length + 1) ∧
    (∀ rid rc, addedNodes old newConsenters = [] →
      removedPairs old newConsenters = [(rid, rc)] →
      ∃ mc, ComputeMembershipChanges old newConsenters = .ok mc ∧
        mc.confChange = some { nodeID := rid, type := .removeNode } ∧
        mapLookup rid mc.newBlockMetadata.consenters = none ∧
        mc.newBlockMetadata.consenters.length + 1 = old.consenters.length) ∧
    (∀ a rid rc, addedNodes old newConsenters = [a] →
      removedPairs old newConsenters = [(rid, rc)] →
      ∃ mc, ComputeMembershipChanges old newConsenters = .ok mc ∧
        mc.newBlockMetadata.consenters.length = old.consenters.length ∧
        mapKeys mc.newBlockMetadata.consenters = mapKeys old.consenters) := by
  refine ⟨?_, ?_, ?_⟩
  · intro a hadd hrem hfresh
    have hrn : removedNodes old newConsenters = [] := by
      unfold removedNodes
      rw [hrem]
      rfl
    unfold ComputeMembershipChanges
    dsimp only
    rw [hadd, hrn]
    simp [mapLookup_mapInsert_self, length_mapInsert_not_mem _ _ _ hfresh]
  · intro rid rc hadd hrem
    have hrn : removedNodes old newConsenters = [rc] := by
      unfold removedNodes
      rw [hrem]
      rfl
    have hdn : deletedNodeID old newConsenters = rid := by
      unfold deletedNodeID
      rw [hrem]
      rfl
    have hmem : rid ∈ mapKeys old.consenters := by
      have : (rid, rc) ∈ old.consenters :=
        mem_of_removedPairs old newConsenters (rid, rc) (hrem ▸ List.mem_singleton.mpr rfl)
      exact List.mem_map.mpr ⟨(rid, rc), this, rfl⟩
    unfold ComputeMembershipChanges
    dsimp only
    rw [hadd, hrn, hdn]
    simp [mapLookup_mapDelete_self, length_mapDelete rid old.consenters hnd hmem]
  · intro a rid rc hadd hrem
    have hrn : removedNodes old newConsenters = [rc] := by
      unfold removedNodes
      rw [hrem]
      rfl
    have hdn : deletedNodeID old newConsenters = rid := by
      unfold deletedNodeID
      rw [hrem]
      rfl
    have hmem : rid ∈ mapKeys old.consenters := by
      have : (rid, rc) ∈ old.consenters :=
        mem_of_removedPairs old newConsenters (rid, rc) (hrem ▸ List.mem_singleton.mpr rfl)
      exact List.mem_map.mpr ⟨(rid, rc), this, rfl⟩
    unfold ComputeMembershipChanges
    dsimp only
    rw [hadd, hrn, hdn]
    simp [length_mapInsert_mem _ _ _ hmem, mapKeys_mapInsert_mem _ _ _ hmem]

theorem computeMembershipChanges_add_remove_witness :
    (∃ mc, ComputeMembershipChanges rotOld [rotC1, rotC2, rotC3, rotC4] = .ok mc ∧
      mapLookup rotOld.nextConsenterId mc.newBlockMetadata.consenters = some rotC4 ∧
      mc.newBlockMetadata.nextConsenterId = rotOld.nextConsenterId + 1 ∧
      mc.confChange = some { nodeID := rotOld.nextConsenterId, type := .addNode } ∧
      mc.newBlockMetadata.consenters.length = rotOld.consenters.length + 1) ∧
    (∃ mc, ComputeMembershipChanges rotOld [rotC1, rotC2] = .ok mc ∧
      mc.confChange = some { nodeID := 3, type := .removeNode } ∧
      mapLookup 3 mc.newBlockMetadata.consenters = none ∧
      mc.newBlockMetadata.consenters.length + 1 = rotOld.consenters.length) ∧
    (∃ mc, ComputeMembershipChanges rotOld [rotC1, rotC2, rotC3x] = .ok mc ∧
      mc.newBlockMetadata.consenters.length = rotOld.consenters.length ∧
      mapKeys mc.newBlockMetadata.consenters = mapKeys rotOld.consenters) :=
  ⟨(computeMembershipChanges_add_remove rotOld [rotC1, rotC2, rotC3, rotC4]
      (by decide)).1 rotC4 (by decide) (by decide) (by decide),
   (computeMembershipChanges_add_remove rotOld [rotC1, rotC2]
      (by decide)).2.1 3 rotC3 (by decide) (by decide),
   (computeMembershipChanges_add_remove rotOld [rotC1, rotC2, rotC3x]
      (by decide)).2.2 rotC3x 3 rotC3 (by decide) (by decide)⟩

/-- A block, reduced to the fields this part of the chain logic inspects:
its header number and whether it is a config block.  Config blocks are
modelled without a consenter-set change, so `writeConfigBlock` and the
plain `WriteBlock` have the same modelled effect: persist the raft index
inside the block metadata and append the block to the ledger. -/
structure Block where
  number : Nat
  isConfig : Bool
deriving DecidableEq, Repr

/-- The chain state touched by block writing and snapshot catch-up:
`lastBlock`, the in-flight block counter, the raft index persisted in the
block metadata, the raft `ConfState`, `appliedIndex`, and the ledger.  A
ledger entry carries the marshalled metadata raft index, or `none` when the
block was written with nil metadata (catch-up path). -/
structure ChainState where
  lastBlock : Block
  blockInflight : Nat
  raftIndex : Nat
  confState : List Nat
  appliedIndex : Nat
  ledger : List (Block × Option Nat)
deriving DecidableEq, Repr

/-- Outcome of Chain.writeBlock. -/
inductive WriteResult where
  | panicked
  | ignored
  | written
deriving DecidableEq, Repr

/-- Chain.writeBlock (chain.go): gate on the block number, decrement the
in-flight counter on the leader, then write the block (via
`writeConfigBlock` for config blocks) with raft index `i` persisted in the
block metadata. -/
def writeBlock (c : ChainState) (b : Block) (i : Nat) : WriteResult × ChainState :=
  if c.lastBlock.number + 1 < b.number then (.panicked, c)
  else if b.number < c.lastBlock.number + 1 then (.ignored, c)
  else
    let c1 : ChainState :=
      { c with
        blockInflight := if 0 < c.blockInflight then c.blockInflight - 1 else c.blockInflight
        lastBlock := b }
    (.written, { c1 with raftIndex := i, ledger := c1.ledger ++ [(b, some i)] })

/-- C1: `writeBlock(b, i)` appends `b` to the ledger (with raft index `i`
persisted and `b` becoming `lastBlock`) exactly when
`b.number = lastBlock.number + 1`; a lower number leaves the state
unchanged; a higher number is a panic (and mutates nothing). -/
theorem writeBlock_gating (c : ChainState) (b : Block) (i : Nat) :
    ((writeBlock c b i).1 = .written ↔ b.number = c.lastBlock.number + 1) ∧
    ((writeBlock c b i).1 = .panicked ↔ c.lastBlock.number + 1 < b.number) ∧
    (b.number = c.lastBlock.number + 1 →
      (writeBlock c b i).2.ledger = c.ledger ++ [(b, some i)] ∧
      (writeBlock c b i).2.lastBlock = b ∧
      (writeBlock c b i).2.raftIndex = i) ∧
    (b.number < c.lastBlock.number + 1 →
      (writeBlock c b i).1 = .ignored ∧ (writeBlock c b i).2 = c) ∧
    (c.lastBlock.number + 1 < b.number → (writeBlock c b i).2 = c) := by
  rcases Nat.lt_trichotomy b.number (c.lastBlock.number + 1) with h | h | h
  · have hw : writeBlock c b i = (.ignored, c) := by
      unfold writeBlock
      rw [if_neg (by omega), if_pos h]
    rw [hw]
    refine ⟨by simp; omega, by simp; omega, ?_, fun _ => ⟨rfl, rfl⟩, fun hh => absurd hh (by omega)⟩
    intro hh
    exact absurd hh (by omega)
  · have hw : (writeBlock c b i).1 = .written ∧
        (writeBlock c b i).2.ledger = c.ledger ++ [(b, some i)] ∧
        (writeBlock c b i).2.lastBlock = b ∧
        (writeBlock c b i).2.raftIndex = i := by
      unfold writeBlock
      rw [if_neg (by omega), if_neg (by omega)]
      exact ⟨rfl, rfl, rfl, rfl⟩
    refine ⟨by simp [hw.1, h], by simp [hw.1]; omega, fun _ => hw.2, ?_, fun hh => absurd hh (by omega)⟩
    intro hh
    exact absurd hh (by omega)
  · have hw : writeBlock c b i = (.panicked, c) := by
      unfold writeBlock
      rw [if_pos h]
    rw [hw]
    refine ⟨by simp; omega, by simp; omega, ?_, ?_, fun _ => rfl⟩
    · intro hh
      exact absurd hh (by omega)
    · intro hh
      exact absurd hh (by omega)

/-- A raft snapshot: metadata index and conf state, and its data, which
unmarshals to a block. -/
structure Snapshot where
  index : Nat
  confState : List Nat
  data : Block
deriving DecidableEq, Repr

/-- Chain.catchUp's pull loop: pull blocks sequentially and write each with
nil metadata.  `n` is the number of blocks still to pull, `next` the next
sequence to request. -/
def catchUpLoop (pull : Nat → Option Block) : Nat → Nat → ChainState → Except String ChainState
  | 0, _, c => .ok c
  | n + 1, next, c =>
    match pull next with
    | none => .error ("failed to fetch block from cluster")
    | some b =>
      catchUpLoop pull n (next + 1)
        { c with ledger := c.ledger ++ [(b, none)], lastBlock := b }

/-- Chain.catchUp (chain.go): compare the snapshot's embedded block number
with `lastBlock.number`; if not ahead, no sync is needed and no puller is
created; otherwise create a puller (first component `true`) and pull every
missing block. -/
def catchUp (pull : Nat → Option Block) (c : ChainState) (sn : Snapshot) :
    Bool × Except String ChainState :=
  if sn.data.number ≤ c.lastBlock.number then (false, .ok c)
  else (true, catchUpLoop pull (sn.data.number - c.lastBlock.number) (c.lastBlock.number + 1) c)

/-- Result of the snapshot branch of the main loop: the chain state, whether
a catch-up block puller was created, and whether the loop panicked. -/
structure SnapResult where
  state : ChainState
  pullerCreated : Bool
  panicked : Bool
deriving DecidableEq, Repr

/-- The `catchUp` call made by the snapshot branch; a catch-up error is a
panic of `serveRequest`. -/
def runCatchUp (pull : Nat → Option Block) (c : ChainState) (sn : Snapshot) : SnapResult :=
  match catchUp pull c sn with
  | (created, .ok c2) => { state := c2, pullerCreated := created, panicked := false }
  | (created, .error _) => { state := c, pullerCreated := created, panicked := true }

/-- The snapshot branch of Chain.serveRequest: a non-zero index at or below
`appliedIndex` is skipped as stale; a newer snapshot first advances
`confState` and `appliedIndex`; an artificial snapshot (index 0) goes to
catch-up directly. -/
def handleSnap (pull : Nat → Option Block) (c : ChainState) (sn : Snapshot) : SnapResult :=
  if sn.index ≠ 0 then
    if sn.index ≤ c.appliedIndex then
      { state := c, pullerCreated := false, panicked := false }
    else
      runCatchUp pull { c with confState := sn.confState, appliedIndex := sn.index } sn
  else
    runCatchUp pull c sn

/-- C8: a snapshot with non-zero index at or below `appliedIndex` is skipped
as stale: `confState`, `appliedIndex`, `lastBlock` and the ledger are
unchanged and no catch-up block puller is created. -/
theorem snapshot_stale_skip (pull : Nat → Option Block) (c : ChainState) (sn : Snapshot)
    (h0 : sn.index ≠ 0) (h : sn.index ≤ c.appliedIndex) :
    (handleSnap pull c sn).state.confState = c.confState ∧
    (handleSnap pull c sn).state.appliedIndex = c.appliedIndex ∧
    (handleSnap pull c sn).state.lastBlock = c.lastBlock ∧
    (handleSnap pull c sn).state.ledger = c.ledger ∧
    (handleSnap pull c sn).pullerCreated = false ∧
    (handleSnap pull c sn).state = c := by
  have hw : handleSnap pull c sn = { state := c, pullerCreated := false, panicked := false } := by
    unfold handleSnap
    rw [if_pos h0, if_pos h]
  rw [hw]
  exact ⟨rfl, rfl, rfl, rfl, rfl, rfl⟩

def snapChain : ChainState :=
  { lastBlock := { number := 10, isConfig := false }
    blockInflight := 0
    raftIndex := 7
    confState := [1, 2, 3]
    appliedIndex := 5
    ledger := [] }

theorem snapshot_stale_skip_witness :
    (handleSnap (fun _ => none) snapChain
        { index := 5, confState := [1, 2], data := { number := 42, isConfig := false } }).state =
        snapChain ∧
    (handleSnap (fun _ => none) snapChain
        { index := 5, confState := [1, 2], data := { number := 42, isConfig := false } }).pullerCreated =
        false :=
  ⟨(snapshot_stale_skip (fun _ => none) snapChain
      { index := 5, confState := [1, 2], data := { number := 42, isConfig := false } }
      (by decide) (by decide)).2.2.2.2.2,
   (snapshot_stale_skip (fun _ => none) snapChain
      { index := 5, confState := [1, 2], data := { number := 42, isConfig := false } }
      (by decide) (by decide)).2.2.2.2.1⟩

def wbChain : ChainState :=
  { lastBlock := { number := 10, isConfig := false }
    blockInflight := 2
    raftIndex := 7
    confState := [1, 2, 3]
    appliedIndex := 5
    ledger := [] }

theorem writeBlock_gating_witness :
    (writeBlock wbChain { number := 11, isConfig := false } 9).2.ledger =
      wbChain.ledger ++ [({ number := 11, isConfig := false }, some 9)] ∧
    (writeBlock wbChain { number := 11, isConfig := false } 9).2.lastBlock =
      { number := 11, isConfig := false } ∧
    (writeBlock wbChain { number := 11, isConfig := false } 9).2.raftIndex = 9 :=
  (writeBlock_gating wbChain { number := 11, isConfig := false } 9).2.2.1 (by decide)

/-- Where LedgerBlockPuller.PullBlock served a request from. -/
inductive BlockSource where
  | ledger
  | remote
deriving DecidableEq, Repr

/-- LedgerBlockPuller.PullBlock (util.go): `lastSeq := Height() - 1` in
uint64 arithmetic (wrapping below zero), then serve from the local block
retriever when `lastSeq >= seq`, else from the remote puller. -/
def ledgerPullBlock (height seq : Nat) : BlockSource :=
  let lastSeq := (height + 18446744073709551615) % 18446744073709551616
  if seq ≤ lastSeq then .ledger else .remote

/-- C7 counterexample: at height 0 the uint64 subtraction wraps, so
`PullBlock 0` reads from the local ledger even though `0 < height()` fails;
the claimed equivalence "local iff seq < height" is false there. -/
theorem ledgerPullBlock_height_zero_reads_ledger :
    ledgerPullBlock 0 0 = .ledger ∧ ¬ ((0 : Nat) < 0) := by
  constructor
  · decide
  · omega

/-- C7 (amended): for a non-empty ledger (`1 ≤ height`, heights and
sequences being uint64 values), `PullBlock(seq)` reads from the local
ledger exactly when `seq < height()`, and otherwise fetches from the
remote puller; at height 0 the uint64 wraparound makes every request read
locally instead. -/
theorem ledgerPullBlock_local_iff (height seq : Nat)
    (h1 : 1 ≤ height) (h2 : height < 18446744073709551616)
    (h3 : seq < 18446744073709551616) :
    ledgerPullBlock height seq = .ledger ↔ seq < height := by
  unfold ledgerPullBlock
  dsimp only
  have hmod : (height + 18446744073709551615) % 18446744073709551616 = height - 1 := by
    omega
  rw [hmod]
  split_ifs with h
  · exact iff_of_true rfl (by omega)
  · exact iff_of_false (by decide) (by omega)

theorem ledgerPullBlock_local_iff_witness :
    (ledgerPullBlock 3 1 = .ledger ↔ (1 : Nat) < 3) ∧
    (ledgerPullBlock 3 7 = .ledger ↔ (7 : Nat) < 3) :=
  ⟨ledgerPullBlock_local_iff 3 1 (by decide) (by norm_num) (by norm_num),
   ledgerPullBlock_local_iff 3 7 (by decide) (by norm_num) (by norm_num)⟩

/-- Outcome of the self-membership predicate `amIInChannel`
(ConsenterCertificate.IsConsenterOfChannel through the cluster package):
success, one of the two eviction errors, or any other error. -/
inductive MembershipOutcome where
  | ok
  | notInChannel
  | forbidden
  | otherError
deriving DecidableEq, Repr

/-- The environment of one confirmSuspicion call: the results produced by
the external collaborators (puller factory, last-config-block pull, ledger
height, membership predicate, per-sequence pulls and ledger appends). -/
structure EvictionEnv where
  createPullerOk : Bool
  lastConfigBlock : Option Block
  height : Nat
  membership : MembershipOutcome
  pull : Nat → Block
  writeOk : Block → Bool

/-- The observable effects of one confirmSuspicion call. -/
structure EvictionTrace where
  pullerCreated : Bool
  panicked : Bool
  haltCalled : Bool
  catchUpTriggered : Option Block
  blocksWritten : List Nat
  halted : Bool
deriving DecidableEq, Repr

/-- The final pull-and-append loop of confirmSuspicion: `n` blocks starting
at sequence `start`; a failed ledger append is a panic that ends the loop. -/
def evictionPullLoop (env : EvictionEnv) : Nat → Nat → List Nat × Bool
  | _, 0 => ([], false)
  | start, n + 1 =>
    if env.writeOk (env.pull start) then
      let rest := evictionPullLoop env (start + 1) n
      (start :: rest.1, rest.2)
    else ([], true)

/-- A trace that performed nothing beyond (possibly) creating a puller. -/
def noActionTrace (halted : Bool) (pullerCreated : Bool) : EvictionTrace :=
  { pullerCreated := pullerCreated
    panicked := false
    haltCalled := false
    catchUpTriggered := none
    blocksWritten := []
    halted := halted }

/-- evictionSuspector.confirmSuspicion (util.go).  `halted` is the
suspector's flag on entry; durations are modelled as naturals. -/
def confirmSuspicion (threshold cumulative : Nat) (halted : Bool) (env : EvictionEnv) :
    EvictionTrace :=
  if cumulative < threshold ∨ halted = true then noActionTrace halted false
  else if env.createPullerOk = false then { noActionTrace halted false with panicked := true }
  else
    match env.lastConfigBlock with
    | none => noActionTrace halted true
    | some lcb =>
      if lcb.number + 1 ≤ env.height then noActionTrace halted true
      else if env.membership ≠ .notInChannel ∧ env.membership ≠ .forbidden then
        { noActionTrace halted true with catchUpTriggered := some lcb }
      else
        let loop := evictionPullLoop env env.height (lcb.number + 1 - env.height)
        { pullerCreated := true
          panicked := loop.2
          haltCalled := true
          catchUpTriggered := none
          blocksWritten := loop.1
          halted := true }

theorem evictionPullLoop_all_ok (env : EvictionEnv)
    (h : ∀ k, env.writeOk (env.pull k) = true) (n start : Nat) :
    evictionPullLoop env start n = (List.range' start n, false) := by
  induction n generalizing start with
  | zero => simp [evictionPullLoop]
  | succ n ih => simp [evictionPullLoop, h, ih, List.range'_succ]

/-- C5: confirmSuspicion returns without creating a puller below the
threshold or when already halted; aborts with no further action when the
pulled config block is not ahead of the local height; on any membership
result other than NotInChannel/Forbidden it does not halt and delivers a
snapshot whose data is the config block to the catch-up channel; only
NotInChannel/Forbidden leads to halting, followed by pulling and writing
every block from height() through the config block's number inclusive. -/
theorem confirmSuspicion_spec (threshold cumulative : Nat) (halted : Bool)
    (env : EvictionEnv) :
    (cumulative < threshold ∨ halted = true →
      confirmSuspicion threshold cumulative halted env = noActionTrace halted false) ∧
    (∀ lcb, ¬ (cumulative < threshold ∨ halted = true) →
      env.createPullerOk = true → env.lastConfigBlock = some lcb →
      lcb.number + 1 ≤ env.height →
      confirmSuspicion threshold cumulative halted env = noActionTrace halted true) ∧
    (∀ lcb, ¬ (cumulative < threshold ∨ halted = true) →
      env.createPullerOk = true → env.lastConfigBlock = some lcb →
      ¬ lcb.number + 1 ≤ env.height →
      env.membership ≠ .notInChannel → env.membership ≠ .forbidden →
      confirmSuspicion threshold cumulative halted env =
        { noActionTrace halted true with catchUpTriggered := some lcb }) ∧
    ((confirmSuspicion threshold cumulative halted env).haltCalled = true →
      env.membership = .notInChannel ∨ env.membership = .forbidden) ∧
    (∀ lcb, ¬ (cumulative < threshold ∨ halted = true) →
      env.createPullerOk = true → env.lastConfigBlock = some lcb →
      ¬ lcb.number + 1 ≤ env.height →
      (env.membership = .notInChannel ∨ env.membership = .forbidden) →
      (∀ k, env.writeOk (env.pull k) = true) →
      confirmSuspicion threshold cumulative halted env =
        { pullerCreated := true
          panicked := false
          haltCalled := true
          catchUpTriggered := none
          blocksWritten := List.range' env.height (lcb.number + 1 - env.height)
          halted := true }) := by
  refine ⟨?_, ?_, ?_, ?_, ?_⟩
  · intro hg
    unfold confirmSuspicion
    rw [if_pos hg]
  · intro lcb hg hp hl hh
    unfold confirmSuspicion
    rw [if_neg hg, if_neg (by simp [hp]), hl]
    simp [hh]
  · intro lcb hg hp hl hh hm1 hm2
    unfold confirmSuspicion
    rw [if_neg hg, if_neg (by simp [hp]), hl]
    simp only [if_neg hh]
    rw [if_pos ⟨hm1, hm2⟩]
  · intro hhc
    by_cases hm : env.membership = .notInChannel ∨ env.membership = .forbidden
    · exact hm
    · exfalso
      push_neg at hm
      revert hhc
      unfold confirmSuspicion
      by_cases h1 : cumulative < threshold ∨ halted = true
      · rw [if_pos h1]
        simp [noActionTrace]
      · rw [if_neg h1]
        by_cases h2 : env.createPullerOk = false
        · rw [if_pos h2]
          simp [noActionTrace]
        · rw [if_neg h2]
          rcases henv : env.lastConfigBlock with _ | lcb
          · simp only [henv]
            simp [noActionTrace]
          · simp only [henv]
            by_cases h3 : lcb.number + 1 ≤ env.height
            · rw [if_pos h3]
              simp [noActionTrace]
            · rw [if_neg h3, if_pos ⟨hm.1, hm.2⟩]
              simp [noActionTrace]
  · intro lcb hg hp hl hh hm hw
    unfold confirmSuspicion
    rw [if_neg hg, if_neg (by simp [hp]), hl]
    simp only [if_neg hh]
    rw [if_neg (by rcases hm with hm | hm <;> simp [hm])]
    simp [evictionPullLoop_all_ok env hw]

def evictEnvBelow : EvictionEnv :=
  { createPullerOk := true
    lastConfigBlock := some { number := 50, isConfig := true }
    height := 48
    membership := .ok
    pull := fun k => { number := k, isConfig := false }
    writeOk := fun _ => true }

def evictEnvOut : EvictionEnv :=
  { createPullerOk := true
    lastConfigBlock := some { number := 50, isConfig := true }
    height := 48
    membership := .notInChannel
    pull := fun k => { number := k, isConfig := false }
    writeOk := fun _ => true }

theorem confirmSuspicion_spec_witness :
    confirmSuspicion 10 3 false evictEnvBelow = noActionTrace false false ∧
    confirmSuspicion 10 20 false evictEnvBelow =
      { noActionTrace false true with
        catchUpTriggered := some { number := 50, isConfig := true } } ∧
    confirmSuspicion 10 20 false evictEnvOut =
      { pullerCreated := true
        panicked := false
        haltCalled := true
        catchUpTriggered := none
        blocksWritten := List.range' 48 3
        halted := true } :=
  ⟨(confirmSuspicion_spec 10 3 false evictEnvBelow).1 (Or.inl (by decide)),
   (confirmSuspicion_spec 10 20 false evictEnvBelow).2.2.1
      { number := 50, isConfig := true } (by decide) rfl rfl (by decide)
      (by decide) (by decide),
   (confirmSuspicion_spec 10 20 false evictEnvOut).2.2.2.2
      { number := 50, isConfig := true } (by decide) rfl rfl (by decide)
      (Or.inl rfl) (fun _ => rfl)⟩

/-- etcdraft.ConfigMetadata, reduced to its consenter slice; entries are
optional because the Go slice holds pointers that may be nil. -/
structure ConfigMetadata where
  consenters : List (Option Consenter)
deriving DecidableEq, Repr

/-- The two certificates of a consenter, regardless of type. -/
def consenterCerts (c : Consenter) : List String :=
  [c.serverTlsCert, c.clientTlsCert]

/-- Two consenters share a certificate byte-string, of either type. -/
def sharesCert (a b : Consenter) : Prop :=
  ∃ x ∈ consenterCerts a, x ∈ consenterCerts b

/-- The seen-set scan of MetadataHasDuplication: fail when a certificate of
the current consenter was already seen on an earlier consenter, else record
both certificates and continue. -/
def dupScan : List Consenter → List String → Bool
  | [], _ => false
  | c :: rest, seen =>
    if c.serverTlsCert ∈ seen ∨ c.clientTlsCert ∈ seen then true
    else dupScan rest (c.serverTlsCert :: c.clientTlsCert :: seen)

/-- MetadataHasDuplication (util.go); `true` means an error is returned.
Nil metadata and a nil consenter entry are errors; otherwise the scan. -/
def MetadataHasDuplication (md : Option ConfigMetadata) : Bool :=
  match md with
  | none => true
  | some md =>
    if md.consenters.any (fun c => c.isNone) then true
    else dupScan (md.consenters.filterMap id) []

theorem dupScan_eq_false_iff (cs : List Consenter) (seen : List String) :
    dupScan cs seen = false ↔
      List.Pairwise (fun a b => ¬ sharesCert a b) cs ∧
      ∀ c ∈ cs, ∀ x ∈ consenterCerts c, x ∉ seen := by
  induction cs generalizing seen with
  | nil => simp [dupScan]
  | cons c rest ih =>
    by_cases h : c.serverTlsCert ∈ seen ∨ c.clientTlsCert ∈ seen
    · simp only [dupScan, if_pos h]
      constructor
      · intro hfalse
        cases hfalse
      · rintro ⟨-, hall⟩
        rcases h with h | h
        · exact absurd h (hall c (List.mem_cons_self _ _) c.serverTlsCert
            (by simp [consenterCerts]))
        · exact absurd h (hall c (List.mem_cons_self _ _) c.clientTlsCert
            (by simp [consenterCerts]))
    · simp only [dupScan, if_neg h]
      rw [ih]
      push_neg at h
      constructor
      · rintro ⟨hpw, hall⟩
        constructor
        · rw [List.pairwise_cons]
          refine ⟨?_, hpw⟩
          intro b hb hshare
          rcases hshare with ⟨x, hxc, hxb⟩
          have hnot := hall b hb x hxb
          simp only [List.mem_cons, not_or] at hnot
          simp only [consenterCerts, List.mem_cons, List.not_mem_nil, or_false] at hxc
          rcases hxc with rfl | rfl
          · exact hnot.1 rfl
          · exact hnot.2.1 rfl
        · intro cc hcc x hx
          rcases List.mem_cons.mp hcc with rfl | hcc
          · simp only [consenterCerts, List.mem_cons, List.not_mem_nil, or_false] at hx
            rcases hx with rfl | rfl
            · exact h.1
            · exact h.2
          · have hnot := hall cc hcc x hx
            simp only [List.mem_cons, not_or] at hnot
            exact hnot.2.2
      · rintro ⟨hpw, hall⟩
        rw [List.pairwise_cons] at hpw
        refine ⟨hpw.2, ?_⟩
        intro cc hcc x hx
        simp only [List.mem_cons, not_or]
        refine ⟨?_, ?_, hall cc (List.mem_cons_of_mem _ hcc) x hx⟩
        · intro hxs
          exact hpw.1 cc hcc ⟨x, by simp [consenterCerts, hxs], hx⟩
        · intro hxc
          exact hpw.1 cc hcc ⟨x, by simp [consenterCerts, hxc], hx⟩

/-- C6: for non-null metadata, MetadataHasDuplication errs exactly when some
consenter entry is null or some certificate byte-string (of either type)
appears in more than one consenter slot. -/
theorem metadataHasDuplication_iff (md : ConfigMetadata) :
    MetadataHasDuplication (some md) = true ↔
      (∃ c ∈ md.consenters, c = none) ∨
      ¬ List.Pairwise (fun a b => ¬ sharesCert a b) (md.consenters.filterMap id) := by
  show (if md.consenters.any (fun c => c.isNone) then true
      else dupScan (md.consenters.filterMap id) []) = true ↔ _
  by_cases h : md.consenters.any (fun c => c.isNone)
  · rw [if_pos h]
    simp only [true_iff]
    left
    simpa only [List.any_eq_true, Option.isNone_iff_eq_none] using h
  · rw [if_neg h]
    have hd := dupScan_eq_false_iff (md.consenters.filterMap id) []
    constructor
    · intro ht
      right
      intro hpw
      have hf : dupScan (md.consenters.filterMap id) [] = false :=
        hd.mpr ⟨hpw, by simp⟩
      rw [hf] at ht
      cases ht
    · rintro (hn | hpw)
      · exfalso
        apply h
        simpa only [List.any_eq_true, Option.isNone_iff_eq_none] using hn
      · by_contra hff
        have hf : dupScan (md.consenters.filterMap id) [] = false := by
          revert hff
          cases dupScan (md.consenters.filterMap id) [] <;> simp
        exact hpw (hd.mp hf).1

/-- Raft soft-state role, as distinguished by the chain. -/
inductive RaftRole where
  | follower
  | preCandidate
  | candidate
  | leader
deriving DecidableEq, Repr

/-- isCandidate (chain.go): pre-candidate or candidate. -/
def isCandidate : RaftRole → Bool
  | .preCandidate => true
  | .candidate => true
  | _ => false

/-- raft.SoftState as read by the chain: leader id (0 is raft.None) and
role. -/
structure SoftState where
  lead : Nat
  raftState : RaftRole
deriving DecidableEq, Repr

/-- The chain state relevant to Errored(): whether the channel currently
returned by Errored() is closed, plus the startC/doneC markers. -/
structure ErrorChannelState where
  errorClosed : Bool
  started : Bool
  done : Bool
deriving DecidableEq, Repr

/-- Chain.Start (chain.go), projected to this state: a failed communication
configuration closes doneC and returns early; otherwise startC and errorC
are closed unconditionally, whatever the cluster size. -/
def startStep (configureOk : Bool) (s : ErrorChannelState) : ErrorChannelState :=
  if configureOk = false then { s with done := true }
  else { s with started := true, errorClosed := true }

/-- foundLeader (serveRequest): previously no leader, now some leader. -/
def foundLeader (oldSoft newSoft : SoftState) : Bool :=
  oldSoft.lead == 0 && newSoft.lead != 0

/-- quitCandidate (serveRequest): was a candidate, no longer is. -/
def quitCandidate (oldSoft newSoft : SoftState) : Bool :=
  isCandidate oldSoft.raftState && !isCandidate newSoft.raftState

/-- The soft-state handling of the applyC branch of serveRequest, projected
to the errored channel: on a newly found leader or on quitting candidacy
the channel is replaced by a fresh open one; then, in a candidate or
leaderless state, a channel that is not already closed is closed when the
consenter set has more than two nodes, and left open (with a warning)
otherwise. -/
def applySoftStep (nodeCount : Nat) (oldSoft newSoft : SoftState)
    (s : ErrorChannelState) : ErrorChannelState :=
  let s1 :=
    if foundLeader oldSoft newSoft || quitCandidate oldSoft newSoft then
      { s with errorClosed := false }
    else s
  if isCandidate newSoft.raftState || newSoft.lead == 0 then
    if s1.errorClosed then s1
    else if 2 < nodeCount then { s1 with errorClosed := true }
    else s1
  else s1

/-- The doneC branch of serveRequest: on halt the errored channel ends
closed (closing it now unless already closed). -/
def haltStep (s : ErrorChannelState) : ErrorChannelState :=
  { s with errorClosed := true, done := true }

/-- C9 counterexample: a chain that has just started successfully has its
errored channel closed although no leadership was ever lost, and this holds
for every cluster size, so "closed only when leadership is lost in a
cluster of more than 2 nodes" is false. -/
theorem errored_closed_right_after_start :
    ({ errorClosed := false, started := false, done := false } : ErrorChannelState).errorClosed
        = false ∧
    (startStep true
        { errorClosed := false, started := false, done := false }).errorClosed = true := by
  decide

/-- C9 (amended): within the apply-event handling, the errored channel ends
closed only if the new soft state is candidate or leaderless with more than
2 consenters, or it was already closed and not reset by finding a leader or
quitting candidacy; with 1 or 2 consenters an apply event never closes an
open errored channel.  (Start and halt, by contrast, close it
unconditionally.) -/
theorem applySoftStep_close_condition (nodeCount : Nat) (oldSoft newSoft : SoftState)
    (s : ErrorChannelState) :
    ((applySoftStep nodeCount oldSoft newSoft s).errorClosed = true →
      (2 < nodeCount ∧ (isCandidate newSoft.raftState || newSoft.lead == 0) = true) ∨
      (s.errorClosed = true ∧
        (foundLeader oldSoft newSoft || quitCandidate oldSoft newSoft) = false)) ∧
    (nodeCount ≤ 2 → s.errorClosed = false →
      (applySoftStep nodeCount oldSoft newSoft s).errorClosed = false) := by
  unfold applySoftStep
  dsimp only
  split_ifs with h1 h2 h3 h4 <;> simp_all

theorem applySoftStep_close_condition_witness :
    ((2 < 3 ∧ (isCandidate RaftRole.follower || (0 : Nat) == 0) = true) ∨
      (({ errorClosed := false, started := true, done := false } :
          ErrorChannelState).errorClosed = true ∧
        (foundLeader { lead := 5, raftState := .follower } { lead := 0, raftState := .follower } ||
          quitCandidate { lead := 5, raftState := .follower }
            { lead := 0, raftState := .follower }) = false)) ∧
    (applySoftStep 2 { lead := 5, raftState := .follower } { lead := 0, raftState := .follower }
        { errorClosed := false, started := true, done := false }).errorClosed = false :=
  ⟨(applySoftStep_close_condition 3 { lead := 5, raftState := .follower }
      { lead := 0, raftState := .follower }
      { errorClosed := false, started := true, done := false }).1 (by decide),
   (applySoftStep_close_condition 2 { lead := 5, raftState := .follower }
      { lead := 0, raftState := .follower }
      { errorClosed := false, started := true, done := false }).2 (by decide) rfl⟩

/-- C10: a successful Start closes the errored channel unconditionally (any
cluster size) and marks the chain started; and an apply event replaces a
closed errored channel by an open one only when a leader is newly found or
the node quits candidate state. -/
theorem start_closes_errored (s : ErrorChannelState) (nodeCount : Nat)
    (oldSoft newSoft : SoftState) :
    ((startStep true s).errorClosed = true ∧ (startStep true s).started = true) ∧
    (s.errorClosed = true →
      (applySoftStep nodeCount oldSoft newSoft s).errorClosed = false →
      (foundLeader oldSoft newSoft || quitCandidate oldSoft newSoft) = true) := by
  constructor
  · unfold startStep
    rw [if_neg (by simp)]
    exact ⟨rfl, rfl⟩
  · intro hc
    unfold applySoftStep
    dsimp only
    split_ifs with h1 h2 h3 h4 <;> simp_all

theorem start_closes_errored_witness :
    (foundLeader { lead := 0, raftState := .follower } { lead := 5, raftState := .follower } ||
      quitCandidate { lead := 0, raftState := .follower }
        { lead := 5, raftState := .follower }) = true :=
  (start_closes_errored { errorClosed := true, started := true, done := false } 3
    { lead := 0, raftState := .follower } { lead := 5, raftState := .follower }).2
    rfl (by decide)

end Etcdraft
